import Mathlib

/-!
# Verification of the NYC taxi fare prediction pipeline

Shallow embedding of `src/app.py`: feature engineering (`create_features`),
the haversine distance (`haversine_distance`), the model registry with its
lazy cache (`load_model`, `get_model_info`), and the two service entry
points (`predict`, `batch_predict`).

Modelling conventions:
* Numeric request values and model outputs are rationals (`ℚ`); the program
  runs on IEEE floats, but no control-flow decision of the pipeline depends
  on a numeric value, only on presence/absence and on string keys.
* The transcendental haversine computation that `create_features` performs
  on floats is abstracted as the environment function `Env.hav`; its value
  flows only into the reported feature vector / `distance_km` and never into
  control flow.  The exact real-valued haversine formula of the source is
  embedded separately as `haversine_distance` over `ℝ` and verified on its
  own (symmetry, self-distance, non-negativity).
* `pd.to_datetime` is external library code; it is abstracted as
  `Env.to_datetime : String → Option Timestamp` (`none` = the parse raises).
* `joblib.load` / `os.path.exists` are abstracted as `Env.load_file` and
  `Env.exists_file`, keyed by the file name `{model_name}_model.pkl`
  exactly as in the source (the constant `MODEL_DIR` prefix is dropped).
* A loaded regressor is a function from the feature vector to an optional
  raw estimate; `none` models `model.predict(...)[0]` raising.
* The process-wide cache `_models` becomes an explicit association list
  threaded through every operation, newest entry first.
* Exact error-message texts (`str(e)`) are abstracted by representative
  strings; the claims only distinguish error kinds and HTTP statuses.
-/

namespace TaxiApp

/-- Result of `pd.to_datetime`: the calendar fields the pipeline reads. -/
structure Timestamp where
  hour : ℕ
  dayofweek : ℕ
  month : ℕ
  year : ℕ
deriving DecidableEq

/-- An opaque deserialized regressor: `model.predict(features)[0]`,
`none` modelling an inference-time exception. -/
structure LoadedModel where
  predict : List ℚ → Option ℚ

/-- The external world of `app.py`: filesystem, `joblib`, `pandas`, and the
float haversine computation (see the header: `hav` abstracts the
trigonometric computation whose value never steers control flow). -/
structure Env where
  exists_file : String → Bool
  load_file : String → LoadedModel
  to_datetime : String → Option Timestamp
  hav : ℚ → ℚ → ℚ → ℚ → ℚ

/-- The global `_models` dict: an association list, newest insertion first. -/
abbrev Cache := List (String × LoadedModel)

/-! ## Feature engineering (`create_features`, lines 37-73) -/

/-- `is_morning = 1 if 6 <= hour < 12 else 0` (line 52). -/
def is_morning (hour : ℕ) : ℕ := if 6 ≤ hour ∧ hour < 12 then 1 else 0

/-- `is_afternoon = 1 if 12 <= hour < 18 else 0` (line 53). -/
def is_afternoon (hour : ℕ) : ℕ := if 12 ≤ hour ∧ hour < 18 then 1 else 0

/-- `is_evening = 1 if 18 <= hour < 22 else 0` (line 54). -/
def is_evening (hour : ℕ) : ℕ := if 18 ≤ hour ∧ hour < 22 then 1 else 0

/-- `is_night = 1 if hour >= 22 or hour < 6 else 0` (line 55). -/
def is_night (hour : ℕ) : ℕ := if 22 ≤ hour ∨ hour < 6 then 1 else 0

/-- `is_weekend = 1 if day_of_week >= 5 else 0` (line 58). -/
def is_weekend (day_of_week : ℕ) : ℕ := if 5 ≤ day_of_week then 1 else 0

/-- `is_rush_hour = 1 if (7 <= hour < 10) or (16 <= hour < 19) else 0` (line 61). -/
def is_rush_hour (hour : ℕ) : ℕ :=
  if (7 ≤ hour ∧ hour < 10) ∨ (16 ≤ hour ∧ hour < 19) then 1 else 0

/-- `is_peak_hour = 1 if (hour in [8, 9, 17, 18, 19, 20]) else 0` (line 64). -/
def is_peak_hour (hour : ℕ) : ℕ :=
  if hour ∈ ([8, 9, 17, 18, 19, 20] : List ℕ) then 1 else 0

/-- `create_features(pickup_lat, pickup_lon, dropoff_lat, dropoff_lon,
pickup_datetime)` (lines 37-73).  Distance first (line 40), then the
datetime parse (line 43, the one failure mode), then the 16-entry feature
vector in the source's order (lines 66-71). -/
def create_features (env : Env) (pickup_lat pickup_lon dropoff_lat dropoff_lon : ℚ)
    (pickup_datetime : String) : Except String (List ℚ) :=
  let distance := env.hav pickup_lat pickup_lon dropoff_lat dropoff_lon
  match env.to_datetime pickup_datetime with
  | none => Except.error "invalid timestamp"
  | some dt =>
    let hour := dt.hour
    let day_of_week := dt.dayofweek
    let month := dt.month
    let year := dt.year
    Except.ok [distance, (hour : ℚ), (day_of_week : ℚ), (month : ℚ), (year : ℚ),
      pickup_lat, pickup_lon, dropoff_lat, dropoff_lon,
      (is_morning hour : ℚ), (is_afternoon hour : ℚ), (is_evening hour : ℚ),
      (is_night hour : ℚ), (is_weekend day_of_week : ℚ),
      (is_rush_hour hour : ℚ), (is_peak_hour hour : ℚ)]

/-! ## Model registry (`load_model`, `get_model_info`, lines 76-103) -/

/-- `load_model(model_name)` (lines 78-88): cache hit returns the cached
instance untouched; on a miss, a present artifact is loaded and inserted,
an absent artifact yields `none` with the cache unchanged. -/
def load_model (env : Env) (cache : Cache) (model_name : String) :
    Option LoadedModel × Cache :=
  match cache.lookup model_name with
  | some m => (some m, cache)
  | none =>
    let model_path := model_name ++ "_model.pkl"
    if env.exists_file model_path then
      let m := env.load_file model_path
      (some m, (model_name, m) :: cache)
    else
      (none, cache)

/-- Static descriptor data of `get_model_info` (lines 92-97). -/
structure ModelInfo where
  file : String
  available : Bool
  rmse : String
  r2 : String
deriving DecidableEq

/-- `get_model_info()` (lines 90-103): the fixed enumeration (Python dicts
preserve insertion order), availability recomputed from the filesystem. -/
def get_model_info (env : Env) : List (String × ModelInfo) :=
  let models : List (String × ModelInfo) :=
    [ ("linear_regression",
        { file := "linear_regression_model.pkl", available := false,
          rmse := "$5.24", r2 := "0.82" })
    , ("decision_tree",
        { file := "decision_tree_model.pkl", available := false,
          rmse := "$4.12", r2 := "0.86" })
    , ("random_forest",
        { file := "random_forest_model.pkl", available := false,
          rmse := "$3.42", r2 := "0.91" })
    , ("xgboost",
        { file := "xgboost_model.pkl", available := false,
          rmse := "$3.56", r2 := "0.90" }) ]
  models.map (fun kv => (kv.1, { kv.2 with available := env.exists_file kv.2.file }))

/-- `[k for k, v in get_model_info().items() if v['available']]` (line 138). -/
def available_models (env : Env) : List String :=
  ((get_model_info env).filter (fun kv => kv.2.available)).map (fun kv => kv.1)

/-! ## The prediction service (`predict`, lines 117-172) -/

/-- The JSON body of a single prediction request; `none` = key absent. -/
structure Request where
  pickup_latitude : Option ℚ
  pickup_longitude : Option ℚ
  dropoff_latitude : Option ℚ
  dropoff_longitude : Option ℚ
  pickup_datetime : Option String
  model : Option String

/-- The validation loop over `required_fields` (lines 122-129): name of the
first absent field in the source's fixed order, `none` when all present. -/
def firstMissing (req : Request) : Option String :=
  if req.pickup_latitude.isNone then some "pickup_latitude"
  else if req.pickup_longitude.isNone then some "pickup_longitude"
  else if req.dropoff_latitude.isNone then some "dropoff_latitude"
  else if req.dropoff_longitude.isNone then some "dropoff_longitude"
  else if req.pickup_datetime.isNone then some "pickup_datetime"
  else none

/-- The structured errors of the service boundary (spec taxonomy; the code
returns them as JSON error payloads with an HTTP status). -/
inductive ApiError where
  | missingField (name : String)
  | noModelAvailable
  | predictionFailed (msg : String)
deriving DecidableEq

/-- HTTP status attached to each error return in the source:
400 for missing fields (lines 129, 180), 500 for the no-model return
(line 143) and the generic handlers (lines 172, 209). -/
def http_status : ApiError → ℕ
  | .missingField _ => 400
  | .noModelAvailable => 500
  | .predictionFailed _ => 500

/-- `round(x, 2)` of the source, modelled as rounding to an integer number
of hundredths (tie-breaking differences of Python's float rounding are
irrelevant to every claim). -/
def round2 (x : ℚ) : ℚ := ((round (x * 100) : ℤ) : ℚ) / 100

/-- Successful single-prediction payload (lines 160-169). -/
structure PredictOk where
  prediction : ℚ
  model_used : String
  distance_km : ℚ
deriving DecidableEq

/-- Body of the `try` block after model resolution (lines 145-169):
feature construction (the datetime parse may raise), `model.predict`
(raises on `None` or on inference failure), clamp, round, respond.
Any raise is caught at line 171 into a 500 `predictionFailed`. -/
def run_inference (env : Env) (req : Request) (model_name : String)
    (model : Option LoadedModel) : Except ApiError PredictOk :=
  match create_features env (req.pickup_latitude.getD 0) (req.pickup_longitude.getD 0)
      (req.dropoff_latitude.getD 0) (req.dropoff_longitude.getD 0)
      (req.pickup_datetime.getD "") with
  | .error e => .error (.predictionFailed e)
  | .ok features =>
    match model with
    | none => .error (.predictionFailed "NoneType object has no attribute predict")
    | some m =>
      match m.predict features with
      | none => .error (.predictionFailed "model inference raised")
      | some raw =>
        .ok { prediction := round2 (max 0 raw)
            , model_used := model_name
            , distance_km := round2 (env.hav (req.pickup_latitude.getD 0)
                (req.pickup_longitude.getD 0) (req.dropoff_latitude.getD 0)
                (req.dropoff_longitude.getD 0)) }

/-- `predict()` (lines 117-172): field validation, model resolution with the
fall-back to the first available identifier (lines 131-143), then the
inference body.  Returns the response together with the final cache. -/
def predict (env : Env) (cache : Cache) (req : Request) :
    Except ApiError PredictOk × Cache :=
  match firstMissing req with
  | some f => (.error (.missingField f), cache)
  | none =>
    let model_name := req.model.getD "random_forest"
    match load_model env cache model_name with
    | (some m, c1) => (run_inference env req model_name (some m), c1)
    | (none, c1) =>
      match available_models env with
      | [] => (.error .noModelAvailable, c1)
      | fb :: _ =>
        let (m2, c2) := load_model env c1 fb
        (run_inference env req fb m2, c2)

/-! ## Batch prediction (`batch_predict`, lines 174-211) -/

/-- Successful batch-item payload (lines 204-207). -/
structure BatchOk where
  prediction : ℚ
  model_used : String
deriving DecidableEq

/-- One output entry of the batch: the success dict or `{'error': str(e)}`. -/
abbrev BatchEntry := Except String BatchOk

/-- One iteration of the batch loop (lines 185-209): field access (a missing
key raises `KeyError`), feature construction, model resolution with the
hard-coded `linear_regression` fall-back (lines 197-199, no second `None`
check), inference, clamp, round; any raise becomes this item's error entry. -/
def batch_item (env : Env) (cache : Cache) (item : Request) : BatchEntry × Cache :=
  match firstMissing item with
  | some f => (.error ("KeyError: " ++ f), cache)
  | none =>
    match create_features env (item.pickup_latitude.getD 0) (item.pickup_longitude.getD 0)
        (item.dropoff_latitude.getD 0) (item.dropoff_longitude.getD 0)
        (item.pickup_datetime.getD "") with
    | .error e => (.error e, cache)
    | .ok features =>
      let model_name := item.model.getD "random_forest"
      let (m1, c1) := load_model env cache model_name
      match m1 with
      | some m =>
        match m.predict features with
        | none => (.error "model inference raised", c1)
        | some raw => (.ok { prediction := round2 (max 0 raw), model_used := model_name }, c1)
      | none =>
        let (m2, c2) := load_model env c1 "linear_regression"
        match m2 with
        | none => (.error "NoneType object has no attribute predict", c2)
        | some m =>
          match m.predict features with
          | none => (.error "model inference raised", c2)
          | some raw =>
            (.ok { prediction := round2 (max 0 raw), model_used := "linear_regression" }, c2)

/-- The `for item in data['predictions']` loop (lines 182-209), threading the
shared model cache and appending one entry per item. -/
def batch_loop (env : Env) (cache : Cache) : List Request → List BatchEntry × Cache
  | [] => ([], cache)
  | item :: rest =>
    let (e, c1) := batch_item env cache item
    let (es, c2) := batch_loop env c1 rest
    (e :: es, c2)

/-- The JSON body of a batch request; `none` = no `predictions` key. -/
structure BatchRequest where
  predictions : Option (List Request)

/-- `batch_predict()` (lines 174-211): fail fast on a missing `predictions`
key (line 179-180, status 400), otherwise run the loop. -/
def batch_predict (env : Env) (cache : Cache) (data : BatchRequest) :
    Except ApiError (List BatchEntry) × Cache :=
  match data.predictions with
  | none => (.error (.missingField "predictions"), cache)
  | some items =>
    let (results, c1) := batch_loop env cache items
    (.ok results, c1)

/-! ## GeoDistance (`haversine_distance`, lines 22-34), exact real model -/

/-- `np.arctan2 y x` with numpy's quadrant conventions. -/
noncomputable def arctan2 (y x : ℝ) : ℝ :=
  if 0 < x then Real.arctan (y / x)
  else if x < 0 then
    (if 0 ≤ y then Real.arctan (y / x) + Real.pi else Real.arctan (y / x) - Real.pi)
  else
    (if 0 < y then Real.pi / 2 else if y < 0 then -(Real.pi / 2) else 0)

/-- `np.radians` (degrees to radians, line 26). -/
noncomputable def radians (x : ℝ) : ℝ := x * Real.pi / 180

/-- `haversine_distance(lat1, lon1, lat2, lon2)` (lines 22-34) over the
exact reals. -/
noncomputable def haversine_distance (lat1 lon1 lat2 lon2 : ℝ) : ℝ :=
  let R : ℝ := 6371
  let φ1 := radians lat1
  let l1 := radians lon1
  let φ2 := radians lat2
  let l2 := radians lon2
  let dlat := φ2 - φ1
  let dlon := l2 - l1
  let a := Real.sin (dlat / 2) ^ 2 +
    Real.cos φ1 * Real.cos φ2 * Real.sin (dlon / 2) ^ 2
  let c := 2 * arctan2 (Real.sqrt a) (Real.sqrt (1 - a))
  R * c

/-! ## Concrete fixtures (used to instantiate the theorems below) -/

/-- A regressor whose raw estimate is the negative constant `-7`. -/
def mW : LoadedModel := ⟨fun _ => some (-7)⟩

/-- A regressor whose raw estimate is the constant `10`. -/
def mLR : LoadedModel := ⟨fun _ => some 10⟩

/-- A world where only the `random_forest` artifact exists, exactly one
timestamp string parses (to Saturday 2024-06-15 08:30), and the float
haversine computation returns `3`. -/
def envW : Env :=
  { exists_file := fun p => p == "random_forest_model.pkl"
  , load_file := fun _ => mW
  , to_datetime := fun s =>
      if s == "2024-06-15T08:30:00" then some ⟨8, 5, 6, 2024⟩ else none
  , hav := fun _ _ _ _ => 3 }

/-- A world where only the `linear_regression` artifact exists. -/
def envLR : Env :=
  { envW with
    exists_file := fun p => p == "linear_regression_model.pkl",
    load_file := fun _ => mLR }

/-- A world where only the `decision_tree` artifact exists. -/
def envDT : Env :=
  { envW with exists_file := fun p => p == "decision_tree_model.pkl" }

/-- A world with no model artifacts at all. -/
def envNone : Env := { envW with exists_file := fun _ => false }

/-- A complete well-formed request (no explicit model: defaults apply). -/
def reqW : Request :=
  { pickup_latitude := some 1, pickup_longitude := some 2
  , dropoff_latitude := some 3, dropoff_longitude := some 4
  , pickup_datetime := some "2024-06-15T08:30:00", model := none }

/-- The same request with an unparseable timestamp. -/
def reqC : Request := { reqW with pickup_datetime := some "not-a-date" }

/-- The same request with the `pickup_datetime` key absent. -/
def reqM : Request := { reqW with pickup_datetime := none }

/-- A cache that already holds a `linear_regression` instance. -/
def cacheLR : Cache := [("linear_regression", mLR)]

/-- A three-item batch whose middle item has the bad timestamp. -/
def itemsW : List Request := [reqW, reqC, reqW]

/-- The batch request wrapping `itemsW`. -/
def dataW : BatchRequest := ⟨some itemsW⟩

/-- Length of a successful batch response. -/
def result_length (r : Except ApiError (List BatchEntry) × Cache) : Option ℕ :=
  match r.1 with
  | .ok es => some es.length
  | .error _ => none

/-- HTTP status of a failed single-prediction response. -/
def error_status (r : Except ApiError PredictOk × Cache) : Option ℕ :=
  match r.1 with
  | .error e => some (http_status e)
  | .ok _ => none

/-- Entry at position `i` of a successful batch response. -/
def entry_at (i : ℕ) (r : Except ApiError (List BatchEntry) × Cache) : Option BatchEntry :=
  match r.1 with
  | .ok es => es.get? i
  | .error _ => none

/-! ## Helper lemmas -/

/-- `arctan` of a non-negative argument is non-negative. -/
lemma arctan_nonneg_of_nonneg {t : ℝ} (h : 0 ≤ t) : 0 ≤ Real.arctan t := by
  have h2 := Real.arctan_strictMono.monotone h
  simpa [Real.arctan_zero] using h2

/-- `arctan2` with a non-negative first argument is non-negative. -/
lemma arctan2_nonneg (y x : ℝ) (hy : 0 ≤ y) : 0 ≤ arctan2 y x := by
  unfold arctan2
  rcases lt_trichotomy x 0 with hx | hx | hx
  · rw [if_neg (lt_asymm hx), if_pos hx, if_pos hy]
    have h1 := Real.neg_pi_div_two_lt_arctan (y / x)
    have h2 := Real.pi_pos
    linarith
  · subst hx
    rw [if_neg (lt_irrefl 0), if_neg (lt_irrefl 0)]
    rcases eq_or_lt_of_le hy with hy0 | hy0
    · rw [if_neg (by rw [← hy0]; exact lt_irrefl 0), if_neg (by rw [← hy0]; exact lt_irrefl 0)]
    · rw [if_pos hy0]
      linarith [Real.pi_pos]
  · rw [if_pos hx]
    exact arctan_nonneg_of_nonneg (div_nonneg hy hx.le)

/-- The squared half-angle sine is symmetric in the difference. -/
lemma sin_sq_sub_comm (u v : ℝ) : Real.sin ((u - v) / 2) ^ 2 = Real.sin ((v - u) / 2) ^ 2 := by
  rw [show (u - v) / 2 = -((v - u) / 2) by ring, Real.sin_neg, neg_sq]

/-! ## Claims -/

/-- Claim C9: `haversine_distance` is symmetric in its two coordinate pairs,
the distance from any point to itself is `0`, and the result is non-negative
for all inputs.  (In this real-valued model every value is finite by
construction; the claim's finiteness clause is the absence of any
infinite/NaN outcome, which the totality of these equations over `ℝ`
expresses.) -/
theorem C9_haversine_symm_self_nonneg (lat1 lon1 lat2 lon2 : ℝ) :
    haversine_distance lat1 lon1 lat2 lon2 = haversine_distance lat2 lon2 lat1 lon1 ∧
    haversine_distance lat1 lon1 lat1 lon1 = 0 ∧
    0 ≤ haversine_distance lat1 lon1 lat2 lon2 := by
  refine ⟨?_, ?_, ?_⟩
  · simp only [haversine_distance]
    rw [sin_sq_sub_comm (radians lat2) (radians lat1),
      sin_sq_sub_comm (radians lon2) (radians lon1),
      mul_comm (Real.cos (radians lat1)) (Real.cos (radians lat2))]
  · simp [haversine_distance, arctan2, Real.sqrt_zero, Real.sqrt_one, Real.arctan_zero]
  · simp only [haversine_distance]
    have h := arctan2_nonneg (Real.sqrt (Real.sin ((radians lat2 - radians lat1) / 2) ^ 2 +
        Real.cos (radians lat1) * Real.cos (radians lat2) *
        Real.sin ((radians lon2 - radians lon1) / 2) ^ 2))
      (Real.sqrt (1 - (Real.sin ((radians lat2 - radians lat1) / 2) ^ 2 +
        Real.cos (radians lat1) * Real.cos (radians lat2) *
        Real.sin ((radians lon2 - radians lon1) / 2) ^ 2)))
      (Real.sqrt_nonneg _)
    linarith

/-- Claim C6: for every hour `0..23` exactly one of the four time-of-day
indicators equals `1`, each indicator matches its literal hour set,
`is_rush_hour` matches `[7,10) ∪ [16,19)`, `is_peak_hour` matches
`{8,9,17,18,19,20}`, and `is_weekend` holds exactly for `day_of_week ≥ 5`. -/
theorem C6_indicator_partition (h d : ℕ) (hh : h < 24) :
    is_morning h + is_afternoon h + is_evening h + is_night h = 1 ∧
    (is_morning h = 1 ↔ 6 ≤ h ∧ h < 12) ∧
    (is_afternoon h = 1 ↔ 12 ≤ h ∧ h < 18) ∧
    (is_evening h = 1 ↔ 18 ≤ h ∧ h < 22) ∧
    (is_night h = 1 ↔ 22 ≤ h ∨ h < 6) ∧
    (is_rush_hour h = 1 ↔ (7 ≤ h ∧ h < 10) ∨ (16 ≤ h ∧ h < 19)) ∧
    (is_peak_hour h = 1 ↔ h = 8 ∨ h = 9 ∨ h = 17 ∨ h = 18 ∨ h = 19 ∨ h = 20) ∧
    (is_weekend d = 1 ↔ 5 ≤ d) := by
  have hw : is_weekend d = 1 ↔ 5 ≤ d := by
    unfold is_weekend
    split <;> simp_all
  refine ⟨?_, ?_, ?_, ?_, ?_, ?_, ?_, hw⟩ <;> (interval_cases h <;> decide)

/-- Witness for C6 at the spec's example hour 8 on a Saturday (`day_of_week = 5`). -/
theorem C6_indicator_partition_witness :
    is_morning 8 + is_afternoon 8 + is_evening 8 + is_night 8 = 1 ∧
    (is_morning 8 = 1 ↔ 6 ≤ 8 ∧ 8 < 12) ∧
    (is_afternoon 8 = 1 ↔ 12 ≤ 8 ∧ 8 < 18) ∧
    (is_evening 8 = 1 ↔ 18 ≤ 8 ∧ 8 < 22) ∧
    (is_night 8 = 1 ↔ 22 ≤ 8 ∨ 8 < 6) ∧
    (is_rush_hour 8 = 1 ↔ (7 ≤ 8 ∧ 8 < 10) ∨ (16 ≤ 8 ∧ 8 < 19)) ∧
    (is_peak_hour 8 = 1 ↔ 8 = 8 ∨ 8 = 9 ∨ 8 = 17 ∨ 8 = 18 ∨ 8 = 19 ∨ 8 = 20) ∧
    (is_weekend 5 = 1 ↔ 5 ≤ 5) :=
  C6_indicator_partition 8 5 (by decide)

/-- Claim C8: a cached identifier is served from the cache with no disk
check (the result does not depend on the environment) and no cache change;
a miss with the artifact present loads and inserts it; a miss with the
artifact absent returns `none` without touching the cache, so a later load
against a world where the artifact appeared succeeds (no negative caching). -/
theorem C8_load_model_cache (env : Env) (cache : Cache) (name : String) :
    (∀ m, cache.lookup name = some m →
        load_model env cache name = (some m, cache) ∧
        ∀ env2 : Env, load_model env2 cache name = (some m, cache)) ∧
    (cache.lookup name = none →
      (env.exists_file (name ++ "_model.pkl") = true →
        load_model env cache name =
          (some (env.load_file (name ++ "_model.pkl")),
            (name, env.load_file (name ++ "_model.pkl")) :: cache)) ∧
      (env.exists_file (name ++ "_model.pkl") = false →
        load_model env cache name = (none, cache) ∧
        ∀ env2 : Env, env2.exists_file (name ++ "_model.pkl") = true →
          load_model env2 cache name =
            (some (env2.load_file (name ++ "_model.pkl")),
              (name, env2.load_file (name ++ "_model.pkl")) :: cache))) := by
  refine ⟨fun m hm => ⟨?_, fun env2 => ?_⟩,
    fun hnone => ⟨fun hex => ?_, fun hnex => ⟨?_, fun env2 hex2 => ?_⟩⟩⟩ <;>
    simp [load_model, *]

/-- Witness for C8: a cache hit ignores the filesystem, a miss on a present
artifact inserts, and a miss on an absent artifact leaves the cache alone. -/
theorem C8_load_model_cache_witness :
    load_model envDT cacheLR "linear_regression" = (some mLR, cacheLR) ∧
    load_model envDT cacheLR "decision_tree" =
      (some mW, ("decision_tree", mW) :: cacheLR) ∧
    load_model envDT cacheLR "random_forest" = (none, cacheLR) :=
  ⟨((C8_load_model_cache envDT cacheLR "linear_regression").1 mLR rfl).1,
   ((C8_load_model_cache envDT cacheLR "decision_tree").2 rfl).1 rfl,
   (((C8_load_model_cache envDT cacheLR "random_forest").2 rfl).2 rfl).1⟩

/-- Claim C4: a request with a missing required field fails with status 400
naming the first absent field in the source's fixed order, the cache is not
mutated, and the outcome is independent of the environment (so no model
load, no disk access, no parse is consulted). -/
theorem C4_missing_field_first (env : Env) (cache : Cache) (req : Request) (f : String)
    (h : firstMissing req = some f) :
    predict env cache req = (.error (.missingField f), cache) ∧
    http_status (.missingField f) = 400 ∧
    f = (if req.pickup_latitude.isNone then "pickup_latitude"
      else if req.pickup_longitude.isNone then "pickup_longitude"
      else if req.dropoff_latitude.isNone then "dropoff_latitude"
      else if req.dropoff_longitude.isNone then "dropoff_longitude"
      else "pickup_datetime") ∧
    ∀ env2 : Env, predict env2 cache req = predict env cache req := by
  refine ⟨?_, rfl, ?_, fun env2 => ?_⟩
  · simp [predict, h]
  · unfold firstMissing at h
    split_ifs at h ⊢ <;> simp_all
  · simp [predict, h]

/-- Witness for C4: dropping only `pickup_datetime` yields exactly
`MissingField("pickup_datetime")` with the cache untouched. -/
theorem C4_missing_field_first_witness :
    predict envW [] reqM = (.error (.missingField "pickup_datetime"), []) :=
  (C4_missing_field_first envW [] reqM "pickup_datetime" rfl).1

/-- Rounding a non-negative rational to two decimals stays non-negative. -/
lemma round2_nonneg (x : ℚ) (hx : 0 ≤ x) : 0 ≤ round2 x := by
  unfold round2
  have h1 : (0:ℤ) ≤ round (x * 100) := by
    rw [round_eq]
    refine Int.floor_nonneg.mpr ?_
    linarith
  have h2 : (0:ℚ) ≤ ((round (x * 100) : ℤ) : ℚ) := by exact_mod_cast h1
  positivity

/-- Every successful inference reports the resolved model name and a
prediction of the shape `round2 (max 0 raw)`. -/
lemma run_inference_ok (env : Env) (req : Request) (n : String)
    (mo : Option LoadedModel) (r : PredictOk)
    (h : run_inference env req n mo = .ok r) :
    r.model_used = n ∧ ∃ raw, r.prediction = round2 (max 0 raw) := by
  unfold run_inference at h
  split at h
  · cases h
  · split at h
    · cases h
    · split at h
      · cases h
      · cases h
        exact ⟨rfl, _, rfl⟩

/-- Claim C5: every successful prediction equals `max 0 raw` rounded to two
decimals for the raw model estimate, hence is never negative — including for
models whose raw estimate is negative. -/
theorem C5_clamp_nonneg (env : Env) (cache : Cache) (req : Request)
    (r : PredictOk) (c2 : Cache)
    (h : predict env cache req = (.ok r, c2)) :
    0 ≤ r.prediction ∧ ∃ raw, r.prediction = round2 (max 0 raw) := by
  have hok : ∃ n mo, run_inference env req n mo = .ok r := by
    simp only [predict] at h
    split at h
    · simp at h
    · rcases hl : load_model env cache (req.model.getD "random_forest") with ⟨m1, c1⟩
      rw [hl] at h
      cases m1 with
      | some m =>
        simp only [Prod.mk.injEq] at h
        exact ⟨_, _, h.1⟩
      | none =>
        simp only [Prod.mk.injEq] at h
        split at h
        · simp at h
        · rename_i fb rest heqA
          rcases hl2 : load_model env c1 fb with ⟨m2, cc⟩
          rw [hl2] at h
          simp only [Prod.mk.injEq] at h
          exact ⟨_, _, h.1⟩
  obtain ⟨n, mo, hok⟩ := hok
  obtain ⟨-, raw, hraw⟩ := run_inference_ok env req n mo r hok
  exact ⟨hraw ▸ round2_nonneg _ (le_max_left 0 raw), raw, hraw⟩

/-- Witness for C5: with a model returning the raw estimate `-7`, the served
prediction is clamped to `0`, which is non-negative. -/
theorem C5_clamp_nonneg_witness :
    0 ≤ (PredictOk.mk 0 "random_forest" 3).prediction :=
  (C5_clamp_nonneg envW [] reqW ⟨0, "random_forest", 3⟩ [("random_forest", mW)]
    (by simp +decide [predict, run_inference, create_features, load_model, firstMissing,
      available_models, get_model_info, envW, reqW, mW, round2, round_eq]
        norm_num)).1

/-- Claim C2: when the requested (or default `random_forest`) model cannot
be loaded (not cached, artifact absent), the service falls back to the first
available identifier of the registry's fixed enumeration order — the head of
`available_models` — and a successful prediction reports it as `model_used`;
when no artifact exists at all (and the requested name is not cached),
the call fails with `NoModelAvailable`. -/
theorem C2_fallback_first_available (env : Env) (cache : Cache) (req : Request)
    (h1 : firstMissing req = none)
    (h2 : cache.lookup (req.model.getD "random_forest") = none)
    (h3 : env.exists_file ((req.model.getD "random_forest") ++ "_model.pkl") = false) :
    (∀ fb rest m c2 fs raw,
      available_models env = fb :: rest →
      load_model env cache fb = (some m, c2) →
      create_features env (req.pickup_latitude.getD 0) (req.pickup_longitude.getD 0)
        (req.dropoff_latitude.getD 0) (req.dropoff_longitude.getD 0)
        (req.pickup_datetime.getD "") = .ok fs →
      m.predict fs = some raw →
      predict env cache req =
        (.ok { prediction := round2 (max 0 raw)
             , model_used := fb
             , distance_km := round2 (env.hav (req.pickup_latitude.getD 0)
                 (req.pickup_longitude.getD 0) (req.dropoff_latitude.getD 0)
                 (req.dropoff_longitude.getD 0)) }, c2)) ∧
    ((∀ p, env.exists_file p = false) →
      predict env cache req = (.error .noModelAvailable, cache)) := by
  have hload : load_model env cache (req.model.getD "random_forest") = (none, cache) := by
    simp [load_model, h2, h3]
  constructor
  · intro fb rest m c2 fs raw hA hfb hfeat hraw
    simp only [predict, h1, hload, hA, hfb]
    simp [run_inference, hfeat, hraw]
  · intro hnofs
    have hAv : available_models env = [] := by
      simp [available_models, get_model_info, hnofs]
    simp [predict, h1, hload, hAv]

/-- Witness for C2: with only `linear_regression` on disk the default
`random_forest` request succeeds with `model_used = "linear_regression"`;
with no artifacts at all it fails with `NoModelAvailable`. -/
theorem C2_fallback_first_available_witness :
    predict envLR [] reqW =
      (.ok ⟨round2 (max 0 10), "linear_regression", round2 3⟩,
        [("linear_regression", mLR)]) ∧
    predict envNone [] reqW = (.error .noModelAvailable, []) :=
  ⟨(C2_fallback_first_available envLR [] reqW rfl rfl rfl).1 "linear_regression" [] mLR
      [("linear_regression", mLR)] _ 10 rfl rfl rfl rfl,
   (C2_fallback_first_available envNone [] reqW rfl rfl rfl).2 (fun _ => rfl)⟩

/-- Claim C7: in the batch path, when the requested (or default
`random_forest`) model cannot be loaded, the fall-back target is the
hard-coded `linear_regression` — for every environment, regardless of which
models are available — and a successful item reports it as `model_used`. -/
theorem C7_batch_fallback_linear (env : Env) (cache : Cache) (item : Request)
    (m : LoadedModel) (c2 : Cache) (fs : List ℚ) (raw : ℚ)
    (h1 : firstMissing item = none)
    (hfeat : create_features env (item.pickup_latitude.getD 0) (item.pickup_longitude.getD 0)
      (item.dropoff_latitude.getD 0) (item.dropoff_longitude.getD 0)
      (item.pickup_datetime.getD "") = .ok fs)
    (h2 : cache.lookup (item.model.getD "random_forest") = none)
    (h3 : env.exists_file ((item.model.getD "random_forest") ++ "_model.pkl") = false)
    (hlr : load_model env cache "linear_regression" = (some m, c2))
    (hraw : m.predict fs = some raw) :
    batch_item env cache item =
      (.ok { prediction := round2 (max 0 raw), model_used := "linear_regression" }, c2) := by
  have hload : load_model env cache (item.model.getD "random_forest") = (none, cache) := by
    simp [load_model, h2, h3]
  simp [batch_item, h1, hfeat, hload, hlr, hraw]

/-- Witness for C7: with only `decision_tree` available on disk (so the
enumeration-order fallback would be `decision_tree`) but `linear_regression`
in the cache, the batch item still falls back to `linear_regression`. -/
theorem C7_batch_fallback_linear_witness :
    available_models envDT = ["decision_tree"] ∧
    batch_item envDT cacheLR reqW =
      (.ok ⟨round2 (max 0 10), "linear_regression"⟩, cacheLR) :=
  ⟨rfl, C7_batch_fallback_linear envDT cacheLR reqW mLR cacheLR _ 10 rfl rfl rfl rfl rfl rfl⟩

/-- Claim C10: a batch item whose requested model and `linear_regression`
fall-back are both unavailable produces an error entry at its position (the
`None` model's inference attempt fails and is caught per item), and the
batch call as a whole can only fail with `MissingField("predictions")` —
never with `NoModelAvailable`. -/
theorem C10_item_isolated (env : Env) (cache : Cache) (item : Request) (fs : List ℚ)
    (h1 : firstMissing item = none)
    (hfeat : create_features env (item.pickup_latitude.getD 0) (item.pickup_longitude.getD 0)
      (item.dropoff_latitude.getD 0) (item.dropoff_longitude.getD 0)
      (item.pickup_datetime.getD "") = .ok fs)
    (h2 : cache.lookup (item.model.getD "random_forest") = none)
    (h3 : env.exists_file ((item.model.getD "random_forest") ++ "_model.pkl") = false)
    (h4 : cache.lookup "linear_regression" = none)
    (h5 : env.exists_file "linear_regression_model.pkl" = false) :
    batch_item env cache item =
      (.error "NoneType object has no attribute predict", cache) ∧
    ∀ (env2 : Env) (cache2 : Cache) (data : BatchRequest) (e : ApiError) (c2 : Cache),
      batch_predict env2 cache2 data = (.error e, c2) →
      e = .missingField "predictions" := by
  constructor
  · have hload : load_model env cache (item.model.getD "random_forest") = (none, cache) := by
      simp [load_model, h2, h3]
    have happ : ("linear_regression" ++ "_model.pkl" : String) = "linear_regression_model.pkl" := rfl
    have hload2 : load_model env cache "linear_regression" = (none, cache) := by
      simp [load_model, h4, happ, h5]
    simp [batch_item, h1, hfeat, hload, hload2]
  · intro env2 cache2 data e c2 h
    unfold batch_predict at h
    split at h
    · simp only [Prod.mk.injEq, Except.error.injEq] at h
      exact h.1.symm
    · rename_i items heq
      rcases hbl : batch_loop env2 cache2 items with ⟨es, cc⟩
      rw [hbl] at h
      simp at h

/-- Witness for C10: with no artifacts and an empty cache, the batch item
yields the caught `NoneType` error entry and leaves the cache unchanged. -/
theorem C10_item_isolated_witness :
    batch_item envNone [] reqW =
      (.error "NoneType object has no attribute predict", []) :=
  (C10_item_isolated envNone [] reqW _ rfl rfl rfl rfl rfl rfl).1

/-- The batch loop produces exactly one output entry per input item. -/
lemma batch_loop_length (env : Env) (items : List Request) : ∀ cache : Cache,
    ((batch_loop env cache items).1).length = items.length := by
  induction items with
  | nil => intro cache; rfl
  | cons item rest ih =>
    intro cache
    rcases hbi : batch_item env cache item with ⟨e, c1⟩
    rcases hbl : batch_loop env c1 rest with ⟨es, cc⟩
    have hlen := ih c1
    rw [hbl] at hlen
    simp [batch_loop, hbi, hbl, hlen]

/-- Position `i` of the batch loop's output is the result of processing
input item `i` (against the cache state threaded up to it). -/
lemma batch_loop_get (env : Env) (items : List Request) : ∀ (cache : Cache) (i : ℕ),
    i < items.length →
    ∃ item cmid, items.get? i = some item ∧
      ((batch_loop env cache items).1).get? i = some (batch_item env cmid item).1 := by
  induction items with
  | nil =>
    intro cache i hi
    exact absurd hi (by simp)
  | cons item rest ih =>
    intro cache i hi
    rcases hbi : batch_item env cache item with ⟨e, c1⟩
    cases i with
    | zero =>
      refine ⟨item, cache, rfl, ?_⟩
      simp [batch_loop, hbi]
    | succ j =>
      have hj : j < rest.length := by simpa using hi
      obtain ⟨it2, cmid, hgi, hge⟩ := ih c1 j hj
      refine ⟨it2, cmid, by simpa using hgi, ?_⟩
      simp only [batch_loop, hbi]
      rcases hbl : batch_loop env c1 rest with ⟨es, cc⟩
      rw [hbl] at hge
      simpa using hge

/-- A batch item with a missing required field yields a `KeyError` entry,
whatever the cache state. -/
lemma batch_item_missing_field (env : Env) (cache : Cache) (item : Request) (f : String)
    (h : firstMissing item = some f) :
    batch_item env cache item = (.error ("KeyError: " ++ f), cache) := by
  simp [batch_item, h]

/-- A batch item with an unparseable timestamp yields an error entry,
whatever the cache state. -/
lemma batch_item_bad_timestamp (env : Env) (cache : Cache) (item : Request)
    (h1 : firstMissing item = none)
    (h2 : env.to_datetime (item.pickup_datetime.getD "") = none) :
    batch_item env cache item = (.error "invalid timestamp", cache) := by
  simp [batch_item, create_features, h1, h2]

/-- Claim C3: a batch request without the `predictions` key fails the whole
call with `MissingField("predictions")` (status 400); otherwise the output
has exactly one entry per input item in input order, entry `i` being the
result of processing item `i` — in particular a missing field or a bad
timestamp in one item puts an error entry at that position and neither
aborts nor shortens the batch. -/
theorem C3_batch_shape (env : Env) (cache : Cache) (data : BatchRequest) :
    (data.predictions = none →
      batch_predict env cache data = (.error (.missingField "predictions"), cache) ∧
      http_status (.missingField "predictions") = 400) ∧
    (∀ items, data.predictions = some items →
      ∃ es c2, batch_predict env cache data = (.ok es, c2) ∧
        es.length = items.length ∧
        ∀ i, i < items.length →
          ∃ item cmid, items.get? i = some item ∧
            es.get? i = some (batch_item env cmid item).1 ∧
            (∀ f, firstMissing item = some f →
              es.get? i = some (.error ("KeyError: " ++ f))) ∧
            (firstMissing item = none →
              env.to_datetime (item.pickup_datetime.getD "") = none →
              es.get? i = some (.error "invalid timestamp"))) := by
  constructor
  · intro h
    exact ⟨by simp [batch_predict, h], rfl⟩
  · intro items h
    rcases hbl : batch_loop env cache items with ⟨es, c2⟩
    refine ⟨es, c2, by simp [batch_predict, h, hbl], ?_, ?_⟩
    · have hlen := batch_loop_length env items cache
      rw [hbl] at hlen
      exact hlen
    · intro i hi
      obtain ⟨item, cmid, hgi, hge⟩ := batch_loop_get env items cache i hi
      rw [hbl] at hge
      refine ⟨item, cmid, hgi, hge, ?_, ?_⟩
      · intro f hf
        rw [hge, batch_item_missing_field env cmid item f hf]
      · intro hfm hts
        rw [hge, batch_item_bad_timestamp env cmid item hfm hts]

/-- Witness for C3: the spec's three-item example batch (item 2 has a
malformed timestamp) produces exactly three entries with an error entry in
the middle position. -/
theorem C3_batch_shape_witness :
    result_length (batch_predict envW [] dataW) = some 3 ∧
    entry_at 1 (batch_predict envW [] dataW) = some (.error "invalid timestamp") := by
  obtain ⟨es, c2, heq, hlen, hidx⟩ := (C3_batch_shape envW [] dataW).2 itemsW rfl
  constructor
  · rw [result_length, heq]
    simp [hlen, itemsW]
  · obtain ⟨item, cmid, hgi, hge, hmf, hts⟩ := hidx 1 (by simp [itemsW])
    have hitem : item = reqC := by
      simp [itemsW] at hgi
      exact hgi.symm
    subst hitem
    have h1 : es.get? 1 = some (.error "invalid timestamp") := hts rfl rfl
    rw [entry_at, heq]
    exact h1

/-- Counterexample to claim C1: a request whose five fields are present but
whose timestamp does not parse is answered with the generic catch-all error
carrying HTTP status 500 — the same status as the server-side
`NoModelAvailable` error and not the 400 client-input status — so the
failure is not surfaced as a distinguished client-input error. -/
theorem C1_counterexample :
    predict envW [] reqC =
      (.error (.predictionFailed "invalid timestamp"), [("random_forest", mW)]) ∧
    http_status (.predictionFailed "invalid timestamp") =
      http_status .noModelAvailable ∧
    http_status (.predictionFailed "invalid timestamp") ≠ 400 := by
  refine ⟨?_, rfl, by decide⟩
  simp +decide [predict, run_inference, create_features, load_model, firstMissing,
    envW, reqC, reqW]

/-- Claim C1 as amended: when all five required fields are present, some
model resolves, and the timestamp fails to parse, `predict` surfaces the
failure through the generic exception handler as a `PredictionFailed` error
with HTTP status 500 — the same status as server/resource errors, not a
distinguished client-input status. -/
theorem C1_amended_500 (env : Env) (cache : Cache) (req : Request)
    (h1 : firstMissing req = none)
    (hA : available_models env ≠ [])
    (hts : env.to_datetime (req.pickup_datetime.getD "") = none) :
    ∃ c2, predict env cache req =
      (.error (.predictionFailed "invalid timestamp"), c2) ∧
      http_status (.predictionFailed "invalid timestamp") =
        http_status .noModelAvailable := by
  have hri : ∀ n mo, run_inference env req n mo =
      .error (.predictionFailed "invalid timestamp") := by
    intro n mo
    simp [run_inference, create_features, hts]
  simp only [predict, h1]
  rcases hl : load_model env cache (req.model.getD "random_forest") with ⟨m1, c1⟩
  cases m1 with
  | some m => exact ⟨c1, by simp [hri], rfl⟩
  | none =>
    rcases hAv2 : available_models env with _ | ⟨fb, rest⟩
    · exact absurd hAv2 hA
    · exact ⟨(load_model env c1 fb).2, by simp [hAv2, hri], rfl⟩

/-- Witness for the amended C1: the concrete bad-timestamp request is
answered with status 500. -/
theorem C1_amended_500_witness : error_status (predict envW [] reqC) = some 500 := by
  obtain ⟨c2, heq, -⟩ := C1_amended_500 envW [] reqC rfl (by decide) rfl
  rw [error_status, heq]
  rfl

end TaxiApp
